import Mathlib

/-!
Shallow embedding of `src/main.py` (5-Day Weather Forecast API).

Numbers that are Python floats are modelled as rationals (`ℚ`); Python's
`round(x, 1)` / `round(x)` are modelled by `round1` / `roundInt` below (the
spec explicitly leaves the tie behaviour of rounding implementation-defined,
so the choice of rounding mode is immaterial to every claim).

Dates: the code groups entries by
`datetime.fromtimestamp(entry["dt"]).date().isoformat()`, i.e. the local
calendar date of the epoch timestamp, and later sorts the resulting ISO date
strings lexicographically (which coincides with chronological order).  We
model a calendar date as its day index `(dt + tz).fdiv 86400 : ℤ` where `tz`
is the host timezone offset in seconds; all theorems are proved for every
`tz`.  Sorting day indices numerically coincides with the code's
lexicographic ISO-string sort.

Python's `set(...)` iteration order is arbitrary (hash-based): we model it as
a parameter `σ : List String → List String` constrained by `IsSetOrder`
(the enumeration is duplicate-free and has exactly the elements of the list).
Every theorem quantifies over all admissible `σ`.
-/

namespace WeatherApi

/-- The `"main"` object of a raw interval entry: the fields the code reads
(`temp_min`, `temp_max`, `humidity`). -/
structure MainData where
  temp_min : ℚ
  temp_max : ℚ
  humidity : ℚ
deriving DecidableEq

/-- The `"wind"` object of a raw interval entry (`speed` is the only field read). -/
structure Wind where
  speed : ℚ
deriving DecidableEq

/-- One element of the `"weather"` array of a raw entry. -/
structure Weather where
  description : String
  icon : String
deriving DecidableEq

/-- A raw 3-hour interval entry from the upstream `"list"` array, restricted to
the fields `fetch_forecast` reads.  `rain3h` models `e.get("rain", {}).get("3h", 0.0)`:
`none` when the `"rain"` object or its `"3h"` key is absent.  `snow3h` models the
analogous `"snow"`/`"3h"` value, which the upstream payload may carry but the
code never reads.  `weather0` is `e["weather"][0]`, the only weather element read. -/
structure Entry where
  dt : ℤ
  main : MainData
  wind : Wind
  rain3h : Option ℚ
  snow3h : Option ℚ
  weather0 : Weather
deriving DecidableEq

/-- The extra fields of `DetailedDailyForecast` (the subclass adds exactly these). -/
structure DetailFields where
  avg_temp_c : ℚ
  humidity_percent : ℚ
  wind_speed_mps : ℚ
  weather_desc : String
  weather_icon : String
deriving DecidableEq

/-- One daily record.  `detail = none` is the `BasicDailyForecast` shape,
`detail = some _` the `DetailedDailyForecast` shape (a tagged variant of the
two pydantic models). -/
structure DailyForecast where
  date : ℤ
  min_temp_c : ℚ
  max_temp_c : ℚ
  precipitation_mm : ℚ
  detail : Option DetailFields
deriving DecidableEq

/-- The `PlaceForecast` pydantic model. -/
structure PlaceForecast where
  place : String
  daily_forecast : List DailyForecast
deriving DecidableEq

/-- The `ForecastResponse` pydantic model. -/
structure ForecastResponse where
  forecasts : List PlaceForecast
deriving DecidableEq

/-- The `action` field of `PlaceListRequest` (`Literal["basic", "detailed"]`). -/
inductive Action where
  | basic
  | detailed
deriving DecidableEq

/-- The `PlaceListRequest` pydantic model. -/
structure PlaceListRequest where
  places : List String
  action : Action
deriving DecidableEq

/-- What the code reads out of one upstream HTTP response:
`status_code`; `message` is the `"message"` field of the parsed JSON body
(`none` when absent, used only on the non-200 path); `list` is the parsed
`"list"` array on the 200 path, with `none` modelling a body that is
unparseable JSON or has no well-formed `"list"` (in which case the Python
code's `response.json()` / `data["list"]` raises an ordinary exception). -/
structure UpstreamResponse where
  status_code : ℤ
  message : Option String
  list : Option (List Entry)

/-- FastAPI `HTTPException` as raised by the code: status code and detail string. -/
structure HTTPException where
  status_code : ℤ
  detail : String
deriving DecidableEq

/-- How a request computation can fail: a deliberately raised `HTTPException`
(the controlled error path), or an uncaught ordinary Python exception (e.g. a
`JSONDecodeError` escaping from `response.json()`), which FastAPI turns into a
generic 500, not into the raised-status/detail shape. -/
inductive PyError where
  | http (e : HTTPException)
  | uncaught (exc : String)
deriving DecidableEq

/-- Python `round(x, 1)` on the model: one decimal place.  (Python uses
round-half-to-even, `round` here rounds half up; the spec declares the tie
behaviour implementation-defined and no claim depends on it.) -/
def round1 (x : ℚ) : ℚ := ((round (10 * x) : ℤ) : ℚ) / 10

/-- Python `round(x)` (to an integer-valued float). -/
def roundInt (x : ℚ) : ℚ := ((round x : ℤ) : ℚ)

/-- Calendar-date key of a timestamp: day index of
`datetime.fromtimestamp(dt).date()` for a host timezone offset of `tz` seconds. -/
def dateOf (tz : ℤ) (dt : ℤ) : ℤ := (dt + tz).fdiv 86400

/-- Python `min(...)` over a generator of rationals.  The `[]` case never
arises in the code (day groups are nonempty); Python would raise there. -/
def listMin : List ℚ → ℚ
  | [] => 0
  | x :: xs => xs.foldl min x

/-- Python `max(...)` over a generator of rationals (same caveat as `listMin`). -/
def listMax : List ℚ → ℚ
  | [] => 0
  | x :: xs => xs.foldl max x

/-- Python `max(iterable, key=k)` scan: keep the current maximum, replace it
only on a strictly larger key — so ties are won by the earlier element of the
iteration order. -/
def pyMaxAux (k : String → ℕ) (cur : String) : List String → String
  | [] => cur
  | x :: xs => pyMaxAux k (if k cur < k x then x else cur) xs

/-- Python `max(iterable, key=k)`; `none` on an empty iterable (Python raises). -/
def pyMax (k : String → ℕ) : List String → Option String
  | [] => none
  | x :: xs => some (pyMaxAux k x xs)

/-- Admissibility of a set-iteration order: `o` is an admissible iteration order of Python's `set(l)`: an enumeration
of exactly the distinct values of `l`, in an arbitrary order. -/
def IsSetOrder (l o : List String) : Prop := o.Nodup ∧ ∀ v, v ∈ o ↔ v ∈ l

/-- The expression `max(set(l), key=l.count)` under the set-iteration order `σ l`.
The `.getD ""` default is never reached on the code's inputs (day groups are
nonempty, so `σ l` is nonempty for admissible `σ`). -/
def commonValue (σ : List String → List String) (l : List String) : String :=
  (pyMax (fun v => l.count v) (σ l)).getD ""

/-- Reduce one day group (`entries`, in original upstream order) to a
`DailyForecast`, following the loop body of `fetch_forecast` for date key `d`. -/
def aggregateDay (σ : List String → List String) (action : Action) (d : ℤ)
    (entries : List Entry) : DailyForecast :=
  let min_temp := listMin (entries.map (fun e => e.main.temp_min))
  let max_temp := listMax (entries.map (fun e => e.main.temp_max))
  let precipitation := (entries.map (fun e => e.rain3h.getD 0)).sum
  match action with
  | .basic =>
      { date := d
        min_temp_c := round1 min_temp
        max_temp_c := round1 max_temp
        precipitation_mm := round1 precipitation
        detail := none }
  | .detailed =>
      let n : ℚ := entries.length
      let avg_temp := (entries.map (fun e => (e.main.temp_min + e.main.temp_max) / 2)).sum / n
      let humidity := (entries.map (fun e => e.main.humidity)).sum / n
      let wind_speed := (entries.map (fun e => e.wind.speed)).sum / n
      let descriptions := entries.map (fun e => e.weather0.description)
      let icons := entries.map (fun e => e.weather0.icon)
      { date := d
        min_temp_c := round1 min_temp
        max_temp_c := round1 max_temp
        precipitation_mm := round1 precipitation
        detail := some
          { avg_temp_c := round1 avg_temp
            humidity_percent := roundInt humidity
            wind_speed_mps := round1 wind_speed
            weather_desc := commonValue σ descriptions
            weather_icon := commonValue σ icons } }

/-- Date key of each entry, in entry order (the insertion order of `daily_data`). -/
def dayDates (tz : ℤ) (entries : List Entry) : List ℤ :=
  entries.map (fun e => dateOf tz e.dt)

/-- The group `daily_data[d]`: the entries of day `d`, in original order. -/
def dayEntries (tz : ℤ) (entries : List Entry) (d : ℤ) : List Entry :=
  entries.filter (fun e => dateOf tz e.dt = d)

/-- The keys `sorted(daily_data.keys())[:5]`: the distinct date keys, sorted ascending,
truncated to the first 5. -/
def forecastDays (tz : ℤ) (entries : List Entry) : List ℤ :=
  (List.insertionSort (fun a b => a ≤ b) (dayDates tz entries).dedup).take 5

/-- The aggregation loop of `fetch_forecast`: one `DailyForecast` per retained
date key, in date order. -/
def aggregate (σ : List String → List String) (tz : ℤ) (action : Action)
    (entries : List Entry) : List DailyForecast :=
  (forecastDays tz entries).map (fun d => aggregateDay σ action d (dayEntries tz entries d))

/-- The function `fetch_forecast(place, action)`, with the upstream HTTP world abstracted as
`upstream : String → UpstreamResponse`.  Non-200: raises `HTTPException` with
the upstream status and `f"{place}: {detail}"` where `detail` is the body's
`"message"` or `"Unknown error"`.  On 200: parses `"list"`; a malformed body
makes `response.json()` / `data["list"]` raise an uncaught parsing exception. -/
def fetch_forecast (σ : List String → List String) (tz : ℤ)
    (upstream : String → UpstreamResponse) (place : String) (action : Action) :
    Except PyError PlaceForecast :=
  let response := upstream place
  if response.status_code ≠ 200 then
    .error (.http { status_code := response.status_code
                    detail := place ++ ": " ++ response.message.getD "Unknown error" })
  else
    match response.list with
    | none => .error (.uncaught "JSONDecodeError")
    | some entries => .ok { place := place, daily_forecast := aggregate σ tz action entries }

/-- The `for place in request.places` loop: sequential, fail-fast at the first
raised exception, results collected in request order. -/
def runPlaces (fetch : String → Except PyError PlaceForecast) :
    List String → Except PyError (List PlaceForecast)
  | [] => .ok []
  | p :: ps =>
    match fetch p with
    | .error e => .error e
    | .ok pf =>
      match runPlaces fetch ps with
      | .error e => .error e
      | .ok rest => .ok (pf :: rest)

/-- The endpoint handler `get_weather_forecast(request)`: empty `places` is rejected with a 400
before any upstream call; otherwise each place is fetched in order. -/
def get_weather_forecast (σ : List String → List String) (tz : ℤ)
    (upstream : String → UpstreamResponse) (request : PlaceListRequest) :
    Except PyError ForecastResponse :=
  if request.places = [] then
    .error (.http { status_code := 400, detail := "The 'places' list cannot be empty." })
  else
    match runPlaces (fun place => fetch_forecast σ tz upstream place request.action) request.places with
    | .error e => .error e
    | .ok results => .ok { forecasts := results }

/-- Predicate: `v` has maximal occurrence count among the values of `l` (and occurs in `l`). -/
def MostFrequent (l : List String) (v : String) : Prop :=
  v ∈ l ∧ ∀ w ∈ l, l.count w ≤ l.count v

/-- A daily record stripped to the basic shape (detail group removed). -/
def stripDetail (r : DailyForecast) : DailyForecast :=
  { r with detail := none }

/-! ### Concrete fixtures used by witnesses and counterexamples -/

/-- A concrete raw entry (timestamp at epoch, description `"rain"`). -/
def eA : Entry :=
  { dt := 0
    main := { temp_min := 10, temp_max := 20, humidity := 50 }
    wind := { speed := 5 }
    rain3h := some 1
    snow3h := some 2
    weather0 := { description := "rain", icon := "10d" } }

/-- A concrete raw entry one hour later the same day, description `"clouds"`. -/
def eB : Entry :=
  { dt := 3600
    main := { temp_min := 12, temp_max := 18, humidity := 60 }
    wind := { speed := 3 }
    rain3h := none
    snow3h := none
    weather0 := { description := "clouds", icon := "04d" } }

/-- One admissible set-iteration order: distinct values in (dedup) order. -/
def sId : List String → List String := fun l => l.dedup

/-- Another admissible set-iteration order: distinct values reversed. -/
def revOrder : List String → List String := fun l => l.dedup.reverse

/-- An upstream that always answers 404 with body message `"city not found"`. -/
def upstream404 : String → UpstreamResponse :=
  fun _ => { status_code := 404, message := some "city not found", list := none }

/-- An upstream that answers 200 with a body that cannot be parsed. -/
def upstreamMalformed : String → UpstreamResponse :=
  fun _ => { status_code := 200, message := none, list := none }

/-- An upstream that answers 200 with entries `[eA, eB]` for every place. -/
def upstreamOk : String → UpstreamResponse :=
  fun _ => { status_code := 200, message := none, list := some [eA, eB] }

/-- An upstream that answers 200 with an empty `"list"` for every place. -/
def upstreamEmptyList : String → UpstreamResponse :=
  fun _ => { status_code := 200, message := none, list := some [] }

/-- The single daily record produced for `[eA, eB]` in basic mode
(date 0, min 10, max 20, precipitation 1). -/
def r0b : DailyForecast := aggregateDay sId Action.basic 0 (dayEntries 0 [eA, eB] 0)

/-- The single daily record produced for `[eA]` in detailed mode
(date 0, min 10, max 20, precipitation 1, avg 15, humidity 50, wind 5,
description `"rain"`, icon `"10d"`). -/
def r0d : DailyForecast := aggregateDay sId Action.detailed 0 (dayEntries 0 [eA] 0)

/-! ### Helper lemmas -/

lemma isSetOrder_sId (l : List String) : IsSetOrder l (sId l) :=
  ⟨List.nodup_dedup l, fun _ => List.mem_dedup⟩

lemma isSetOrder_revOrder (l : List String) : IsSetOrder l (revOrder l) :=
  ⟨List.nodup_reverse.mpr (List.nodup_dedup l), fun v => by
    rw [revOrder, List.mem_reverse, List.mem_dedup]⟩

lemma aggregateDay_date (σ : List String → List String) (action : Action) (d : ℤ)
    (g : List Entry) : (aggregateDay σ action d g).date = d := by
  cases action <;> rfl

lemma aggregateDay_precip (σ : List String → List String) (action : Action) (d : ℤ)
    (g : List Entry) :
    (aggregateDay σ action d g).precipitation_mm =
      round1 ((g.map (fun e => e.rain3h.getD 0)).sum) := by
  cases action <;> rfl

lemma mem_aggregate (σ : List String → List String) (tz : ℤ) (action : Action)
    (entries : List Entry) (r : DailyForecast) :
    r ∈ aggregate σ tz action entries ↔
      ∃ d ∈ forecastDays tz entries,
        r = aggregateDay σ action d (dayEntries tz entries d) := by
  rw [aggregate, List.mem_map]
  constructor
  · rintro ⟨d, hd, rfl⟩
    exact ⟨d, hd, rfl⟩
  · rintro ⟨d, hd, rfl⟩
    exact ⟨d, hd, rfl⟩

lemma aggregate_dates (σ : List String → List String) (tz : ℤ) (action : Action)
    (entries : List Entry) :
    (aggregate σ tz action entries).map DailyForecast.date = forecastDays tz entries := by
  rw [aggregate, List.map_map]
  have h : ∀ d ∈ forecastDays tz entries,
      (DailyForecast.date ∘ fun d => aggregateDay σ action d (dayEntries tz entries d)) d =
        id d := fun d _ => aggregateDay_date σ action d _
  rw [List.map_congr_left h, List.map_id]

lemma forecastDays_sorted (tz : ℤ) (entries : List Entry) :
    (forecastDays tz entries).Sorted (fun a b => a < b) := by
  have hs : (List.insertionSort (fun a b => a ≤ b) (dayDates tz entries).dedup).Sorted
      (fun a b => a ≤ b) := List.sorted_insertionSort _ _
  have hn : (List.insertionSort (fun a b => a ≤ b) (dayDates tz entries).dedup).Nodup :=
    (List.perm_insertionSort _ _).nodup_iff.mpr (List.nodup_dedup _)
  exact List.Pairwise.sublist (List.take_sublist 5 _) (hs.lt_of_le hn)

lemma forecastDays_length (tz : ℤ) (entries : List Entry) :
    (forecastDays tz entries).length ≤ 5 :=
  List.length_take_le 5 _

lemma mem_forecastDays_iff (tz : ℤ) (entries : List Entry) (d : ℤ)
    (h : (dayDates tz entries).dedup.length < 5) :
    d ∈ forecastDays tz entries ↔ d ∈ dayDates tz entries := by
  rw [forecastDays, List.take_of_length_le, (List.perm_insertionSort _ _).mem_iff,
    List.mem_dedup]
  rw [(List.perm_insertionSort _ _).length_eq]
  exact le_of_lt h

lemma mem_dayDates_of_mem_forecastDays (tz : ℤ) (entries : List Entry) (d : ℤ)
    (h : d ∈ forecastDays tz entries) : d ∈ dayDates tz entries := by
  rw [forecastDays] at h
  have h1 := (List.take_sublist 5 _).subset h
  exact List.mem_dedup.mp ((List.perm_insertionSort _ _).mem_iff.mp h1)

lemma dayEntries_ne_nil (tz : ℤ) (entries : List Entry) (d : ℤ)
    (h : d ∈ forecastDays tz entries) : dayEntries tz entries d ≠ [] := by
  have h2 := mem_dayDates_of_mem_forecastDays tz entries d h
  rw [dayDates, List.mem_map] at h2
  obtain ⟨e, he, hd⟩ := h2
  exact List.ne_nil_of_mem (List.mem_filter.mpr ⟨he, by simp [hd]⟩)

lemma precip_of_mem (σ : List String → List String) (tz : ℤ) (action : Action)
    (entries : List Entry) (r : DailyForecast) (hr : r ∈ aggregate σ tz action entries) :
    r.precipitation_mm =
      round1 (((dayEntries tz entries r.date).map (fun e => e.rain3h.getD 0)).sum) := by
  obtain ⟨d, hd, rfl⟩ := (mem_aggregate σ tz action entries r).mp hr
  rw [aggregateDay_date, aggregateDay_precip]

lemma pyMaxAux_mem (k : String → ℕ) (cur : String) (xs : List String) :
    pyMaxAux k cur xs ∈ cur :: xs := by
  induction xs generalizing cur with
  | nil => simp [pyMaxAux]
  | cons x xs ih =>
    simp only [pyMaxAux]
    rcases List.mem_cons.mp (ih (if k cur < k x then x else cur)) with h1 | h1
    · rw [h1]
      split
      · exact List.mem_cons_of_mem _ (List.mem_cons_self _ _)
      · exact List.mem_cons_self _ _
    · exact List.mem_cons_of_mem _ (List.mem_cons_of_mem _ h1)

lemma le_pyMaxAux (k : String → ℕ) (cur : String) (xs : List String) :
    ∀ y ∈ cur :: xs, k y ≤ k (pyMaxAux k cur xs) := by
  induction xs generalizing cur with
  | nil =>
    intro y hy
    rcases List.mem_cons.mp hy with h | h
    · rw [h]; simp [pyMaxAux]
    · cases h
  | cons x xs ih =>
    intro y hy
    simp only [pyMaxAux]
    have hm : k (if k cur < k x then x else cur) ≤
        k (pyMaxAux k (if k cur < k x then x else cur) xs) :=
      ih _ _ (List.mem_cons_self _ _)
    have hcur : k cur ≤ k (if k cur < k x then x else cur) := by
      split
      · exact le_of_lt (by assumption)
      · exact le_rfl
    have hx : k x ≤ k (if k cur < k x then x else cur) := by
      split
      · exact le_rfl
      · exact le_of_not_lt (by assumption)
    rcases List.mem_cons.mp hy with h | h
    · rw [h]; exact le_trans hcur hm
    · rcases List.mem_cons.mp h with h2 | h2
      · rw [h2]; exact le_trans hx hm
      · exact ih _ y (List.mem_cons_of_mem _ h2)

lemma commonValue_spec (σ : List String → List String) (l : List String)
    (ho : IsSetOrder l (σ l)) (hne : l ≠ []) : MostFrequent l (commonValue σ l) := by
  obtain ⟨x, hx⟩ := List.exists_mem_of_ne_nil l hne
  have hxo : x ∈ σ l := (ho.2 x).mpr hx
  obtain ⟨y, ys, hcons⟩ := List.exists_cons_of_ne_nil (List.ne_nil_of_mem hxo)
  have hcv : commonValue σ l = pyMaxAux (fun v => l.count v) y ys := by
    rw [commonValue, hcons, pyMax, Option.getD_some]
  constructor
  · rw [hcv]
    exact (ho.2 _).mp (hcons ▸ pyMaxAux_mem (fun v => l.count v) y ys)
  · intro w hw
    have hwo : w ∈ σ l := (ho.2 w).mpr hw
    rw [hcv]
    exact le_pyMaxAux (fun v => l.count v) y ys w (hcons ▸ hwo)

lemma fetch_forecast_err (σ : List String → List String) (tz : ℤ)
    (upstream : String → UpstreamResponse) (place : String) (action : Action)
    (h : (upstream place).status_code ≠ 200) :
    fetch_forecast σ tz upstream place action =
      .error (.http { status_code := (upstream place).status_code
                      detail := place ++ ": " ++ (upstream place).message.getD "Unknown error" }) := by
  simp [fetch_forecast, h]

lemma fetch_forecast_ok (σ : List String → List String) (tz : ℤ)
    (upstream : String → UpstreamResponse) (place : String) (action : Action)
    (es : List Entry) (h200 : (upstream place).status_code = 200)
    (hlist : (upstream place).list = some es) :
    fetch_forecast σ tz upstream place action =
      .ok { place := place, daily_forecast := aggregate σ tz action es } := by
  simp [fetch_forecast, h200, hlist]

lemma runPlaces_ok (fetch : String → Except PyError PlaceForecast) (ps : List String)
    (h : ∀ p ∈ ps, ∃ pf, fetch p = .ok pf ∧ pf.place = p) :
    ∃ results, runPlaces fetch ps = .ok results ∧
      results.map PlaceForecast.place = ps := by
  induction ps with
  | nil => exact ⟨[], rfl, rfl⟩
  | cons p ps ih =>
    obtain ⟨pf, hpf, hplace⟩ := h p (List.mem_cons_self _ _)
    obtain ⟨rest, hrest, hmap⟩ := ih (fun q hq => h q (List.mem_cons_of_mem _ hq))
    refine ⟨pf :: rest, ?_, ?_⟩
    · rw [runPlaces, hpf, hrest]
    · simp [hplace, hmap]

lemma aggregateDay_snow (σ : List String → List String) (action : Action) (d : ℤ)
    (f : Entry → Option ℚ) (g : List Entry) :
    aggregateDay σ action d (g.map (fun e => { e with snow3h := f e })) =
      aggregateDay σ action d g := by
  cases action <;>
    simp only [aggregateDay, List.map_map, List.length_map] <;> rfl

/-! ### Claims -/

/-- C1 (counterexample): the claim says that on a 1-1 count tie such as day
descriptions `["rain", "clouds"]` the first-seen value `"rain"` wins for every
admissible iteration order of `set(descriptions)`.  It is false: the
admissible order `revOrder` makes `max(set(descriptions), key=descriptions.count)`
return `"clouds"`. -/
theorem C1_counterexample :
    ¬ ∀ (σ : List String → List String), (∀ l, IsSetOrder l (σ l)) →
        (aggregate σ 0 Action.detailed [eA, eB]).map
            (fun r => r.detail.map DetailFields.weather_desc) =
          [some "rain"] := by
  intro h
  exact absurd (h revOrder isSetOrder_revOrder) (by decide)

/-- C1 (amended): for every admissible set-iteration order, `weather_desc` and
`weather_icon` of each aggregated day are values of maximal occurrence count
among that day's entries (hence a value with strictly more occurrences than
every other, such as `"rain"` in `["rain", "rain", "clouds"]`, always wins);
on a count tie the winner depends on the arbitrary set-iteration order and is
not guaranteed to be the first-seen value. -/
theorem C1_mode_most_frequent (σ : List String → List String)
    (hσ : ∀ l, IsSetOrder l (σ l)) (tz : ℤ) (entries : List Entry) (r : DailyForecast)
    (hr : r ∈ aggregate σ tz Action.detailed entries) :
    ∃ det, r.detail = some det ∧
      MostFrequent ((dayEntries tz entries r.date).map (fun e => e.weather0.description))
        det.weather_desc ∧
      MostFrequent ((dayEntries tz entries r.date).map (fun e => e.weather0.icon))
        det.weather_icon := by
  obtain ⟨d, hd, rfl⟩ := (mem_aggregate σ tz Action.detailed entries r).mp hr
  rw [aggregateDay_date]
  have hne := dayEntries_ne_nil tz entries d hd
  refine ⟨_, rfl, ?_, ?_⟩
  · exact commonValue_spec σ _ (hσ _) (fun hmap => hne (List.map_eq_nil_iff.mp hmap))
  · exact commonValue_spec σ _ (hσ _) (fun hmap => hne (List.map_eq_nil_iff.mp hmap))

/-- C1 (witness): the amended theorem applied to a concrete one-entry day. -/
theorem C1_witness :
    ∃ det, r0d.detail = some det ∧
      MostFrequent ((dayEntries 0 [eA] r0d.date).map (fun e => e.weather0.description))
        det.weather_desc ∧
      MostFrequent ((dayEntries 0 [eA] r0d.date).map (fun e => e.weather0.icon))
        det.weather_icon :=
  C1_mode_most_frequent sId isSetOrder_sId 0 [eA] r0d (List.mem_cons_self r0d [])

/-- C2: a non-200 upstream response makes `fetch_forecast` raise an
`HTTPException` carrying the upstream status code and the message
`f"{place}: {detail}"`, where `detail` is the upstream body's `"message"`
field or `"Unknown error"` when absent; a single-place request propagates
exactly that error to the endpoint. -/
theorem C2_upstream_error (σ : List String → List String) (tz : ℤ)
    (upstream : String → UpstreamResponse) (place : String) (action : Action)
    (h : (upstream place).status_code ≠ 200) :
    fetch_forecast σ tz upstream place action =
      .error (.http { status_code := (upstream place).status_code
                      detail := place ++ ": " ++ (upstream place).message.getD "Unknown error" }) ∧
    get_weather_forecast σ tz upstream { places := [place], action := action } =
      .error (.http { status_code := (upstream place).status_code
                      detail := place ++ ": " ++ (upstream place).message.getD "Unknown error" }) := by
  have hf := fetch_forecast_err σ tz upstream place action h
  refine ⟨hf, ?_⟩
  simp [get_weather_forecast, runPlaces, hf]

/-- C2 (witness): a 404 with body message `"city not found"` for place
`"Pune"` yields status 404 and detail `"Pune: city not found"`. -/
theorem C2_witness :
    fetch_forecast sId 0 upstream404 "Pune" Action.basic =
      .error (.http { status_code := 404, detail := "Pune: city not found" }) :=
  (C2_upstream_error sId 0 upstream404 "Pune" Action.basic (by decide)).1

/-- C3 (counterexample): the claim says a malformed 200 body is surfaced as an
`UpstreamError` (a raised `HTTPException`).  It is false: the parsing fault
escapes as an uncaught `JSONDecodeError`, which is not an `HTTPException` of
any status/detail. -/
theorem C3_counterexample :
    fetch_forecast sId 0 upstreamMalformed "Pune" Action.basic =
      .error (.uncaught "JSONDecodeError") ∧
    ¬ ∃ e : HTTPException,
        fetch_forecast sId 0 upstreamMalformed "Pune" Action.basic = .error (.http e) := by
  refine ⟨rfl, ?_⟩
  rintro ⟨e, he⟩
  rw [show fetch_forecast sId 0 upstreamMalformed "Pune" Action.basic =
        .error (.uncaught "JSONDecodeError") from rfl] at he
  simp at he

/-- C3 (amended): a 200 upstream response whose body cannot be parsed makes
`fetch_forecast` fail with the uncaught parsing exception (FastAPI then turns
it into a generic 500), not with a raised `HTTPException`. -/
theorem C3_malformed_uncaught (σ : List String → List String) (tz : ℤ)
    (upstream : String → UpstreamResponse) (place : String) (action : Action)
    (h200 : (upstream place).status_code = 200) (hmal : (upstream place).list = none) :
    fetch_forecast σ tz upstream place action = .error (.uncaught "JSONDecodeError") := by
  simp [fetch_forecast, h200, hmal]

/-- C3 (witness): the amended theorem at a concrete malformed 200 response. -/
theorem C3_witness :
    fetch_forecast sId 0 upstreamMalformed "Mumbai" Action.detailed =
      .error (.uncaught "JSONDecodeError") :=
  C3_malformed_uncaught sId 0 upstreamMalformed "Mumbai" Action.detailed rfl rfl

/-- C4: an empty `places` list is rejected with HTTP 400 and the exact message
`The 'places' list cannot be empty.`, and the outcome does not depend on the
upstream at all (no upstream call can influence it). -/
theorem C4_empty_places_rejected (σ : List String → List String) (tz : ℤ)
    (upstream : String → UpstreamResponse) (request : PlaceListRequest)
    (h : request.places = []) :
    get_weather_forecast σ tz upstream request =
      .error (.http { status_code := 400, detail := "The 'places' list cannot be empty." }) ∧
    ∀ upstream2, get_weather_forecast σ tz upstream2 request =
      get_weather_forecast σ tz upstream request := by
  constructor
  · simp [get_weather_forecast, h]
  · intro upstream2
    simp [get_weather_forecast, h]

/-- C4 (witness): the empty request at a concrete upstream. -/
theorem C4_witness :
    get_weather_forecast sId 0 upstream404 { places := [], action := Action.basic } =
      .error (.http { status_code := 400, detail := "The 'places' list cannot be empty." }) :=
  (C4_empty_places_rejected sId 0 upstream404 { places := [], action := Action.basic } rfl).1

/-- C5: when `places` is nonempty and every upstream call succeeds (status 200
with a parseable `"list"`), the endpoint returns one `PlaceForecast` per place,
in request order (so `forecasts` has the same length as `places`). -/
theorem C5_order_preserved (σ : List String → List String) (tz : ℤ)
    (upstream : String → UpstreamResponse) (places : List String) (action : Action)
    (hne : places ≠ [])
    (hok : ∀ p ∈ places, (upstream p).status_code = 200 ∧ ∃ es, (upstream p).list = some es) :
    ∃ results,
      get_weather_forecast σ tz upstream { places := places, action := action } =
        .ok { forecasts := results } ∧
      results.map PlaceForecast.place = places := by
  have h : ∀ p ∈ places,
      ∃ pf, fetch_forecast σ tz upstream p action = .ok pf ∧ pf.place = p := by
    intro p hp
    obtain ⟨h200, es, hes⟩ := hok p hp
    exact ⟨_, fetch_forecast_ok σ tz upstream p action es h200 hes, rfl⟩
  obtain ⟨results, hrun, hmap⟩ := runPlaces_ok _ places h
  refine ⟨results, ?_, hmap⟩
  simp [get_weather_forecast, hne, hrun]

/-- C5 (witness): two places against an always-succeeding upstream. -/
theorem C5_witness :
    ∃ results,
      get_weather_forecast sId 0 upstreamOk
          { places := ["Pune", "Mumbai"], action := Action.basic } =
        .ok { forecasts := results } ∧
      results.map PlaceForecast.place = ["Pune", "Mumbai"] :=
  C5_order_preserved sId 0 upstreamOk ["Pune", "Mumbai"] Action.basic (by decide)
    (fun _ _ => ⟨rfl, [eA, eB], rfl⟩)

/-- C6: every aggregated `daily_forecast` has at most 5 records, its dates are
strictly ascending (hence duplicate-free), and when fewer than 5 distinct
dates occur in the input, every occurring date is retained. -/
theorem C6_daily_invariants (σ : List String → List String) (tz : ℤ) (action : Action)
    (entries : List Entry) :
    (aggregate σ tz action entries).length ≤ 5 ∧
    ((aggregate σ tz action entries).map DailyForecast.date).Sorted (fun a b => a < b) ∧
    ((dayDates tz entries).dedup.length < 5 →
      ∀ d, d ∈ (aggregate σ tz action entries).map DailyForecast.date ↔
        d ∈ dayDates tz entries) := by
  refine ⟨?_, ?_, ?_⟩
  · rw [aggregate, List.length_map]
    exact forecastDays_length tz entries
  · rw [aggregate_dates]
    exact forecastDays_sorted tz entries
  · intro h d
    rw [aggregate_dates]
    exact mem_forecastDays_iff tz entries d h

/-- C6 (witness): the invariants at a concrete two-entry input. -/
theorem C6_witness : (aggregate sId 0 Action.basic [eA, eB]).length ≤ 5 :=
  (C6_daily_invariants sId 0 Action.basic [eA, eB]).1

/-- C7: each retained day's `precipitation_mm` is the sum, over that day's
entries, of the per-entry rain volume (`0` when the field is absent), rounded
to one decimal place. -/
theorem C7_precipitation_sum (σ : List String → List String) (tz : ℤ) (action : Action)
    (entries : List Entry) (r : DailyForecast) (hr : r ∈ aggregate σ tz action entries) :
    r.precipitation_mm =
      round1 (((dayEntries tz entries r.date).map (fun e => e.rain3h.getD 0)).sum) :=
  precip_of_mem σ tz action entries r hr

/-- C7 (witness): the precipitation formula at a concrete day
(`1 + 0` millimetres, rounded, for `[eA, eB]`). -/
theorem C7_witness :
    r0b.precipitation_mm =
      round1 (((dayEntries 0 [eA, eB] r0b.date).map (fun e => e.rain3h.getD 0)).sum) :=
  C7_precipitation_sum sId 0 Action.basic [eA, eB] r0b (List.mem_cons_self r0b [])

/-- C8: basic mode is exactly detailed mode with the detail group stripped: the
shared fields (date, min, max, precipitation) agree record by record, and every
detailed record carries a detail group. -/
theorem C8_modes_agree (σ : List String → List String) (tz : ℤ) (entries : List Entry) :
    aggregate σ tz Action.basic entries =
      (aggregate σ tz Action.detailed entries).map stripDetail ∧
    ∀ r ∈ aggregate σ tz Action.detailed entries, ∃ det, r.detail = some det := by
  constructor
  · simp only [aggregate, List.map_map]
    exact List.map_congr_left (fun d _ => rfl)
  · intro r hr
    obtain ⟨d, _, rfl⟩ := (mem_aggregate σ tz Action.detailed entries r).mp hr
    exact ⟨_, rfl⟩

/-- C8 (witness): mode agreement at a concrete input. -/
theorem C8_witness :
    aggregate sId 0 Action.basic [eA, eB] =
      (aggregate sId 0 Action.detailed [eA, eB]).map stripDetail :=
  (C8_modes_agree sId 0 [eA, eB]).1

/-- C9: a 200 upstream response with an empty `"list"` aggregates to an empty
`daily_forecast` with no error. -/
theorem C9_empty_entries (σ : List String → List String) (tz : ℤ)
    (upstream : String → UpstreamResponse) (place : String) (action : Action)
    (h200 : (upstream place).status_code = 200)
    (hlist : (upstream place).list = some []) :
    fetch_forecast σ tz upstream place action =
      .ok { place := place, daily_forecast := [] } :=
  fetch_forecast_ok σ tz upstream place action [] h200 hlist

/-- C9 (witness): the empty-list upstream at a concrete place. -/
theorem C9_witness :
    fetch_forecast sId 0 upstreamEmptyList "Pune" Action.basic =
      .ok { place := "Pune", daily_forecast := [] } :=
  C9_empty_entries sId 0 upstreamEmptyList "Pune" Action.basic rfl rfl

/-- C10: snowfall volumes are ignored by aggregation: rewriting every entry's
snow field arbitrarily leaves the whole output unchanged, and each day's
`precipitation_mm` is computed from the rain volumes alone. -/
theorem C10_snow_ignored (σ : List String → List String) (tz : ℤ) (action : Action)
    (entries : List Entry) (f : Entry → Option ℚ) :
    aggregate σ tz action (entries.map (fun e => { e with snow3h := f e })) =
      aggregate σ tz action entries ∧
    ∀ r ∈ aggregate σ tz action entries,
      r.precipitation_mm =
        round1 (((dayEntries tz entries r.date).map (fun e => e.rain3h.getD 0)).sum) := by
  constructor
  · have hdd : dayDates tz (entries.map (fun e => { e with snow3h := f e })) =
        dayDates tz entries := by
      simp only [dayDates, List.map_map]
      rfl
    have hfd : forecastDays tz (entries.map (fun e => { e with snow3h := f e })) =
        forecastDays tz entries := by
      rw [forecastDays, forecastDays, hdd]
    have hde : ∀ d, dayEntries tz (entries.map (fun e => { e with snow3h := f e })) d =
        (dayEntries tz entries d).map (fun e => { e with snow3h := f e }) := by
      intro d
      rw [dayEntries, dayEntries, List.filter_map]
      rfl
    rw [aggregate, aggregate, hfd]
    refine List.map_congr_left (fun d _ => ?_)
    rw [hde d]
    exact aggregateDay_snow σ action d f _
  · exact fun r hr => precip_of_mem σ tz action entries r hr

/-- C10 (witness): overwriting the snow fields of a concrete input changes nothing. -/
theorem C10_witness :
    aggregate sId 0 Action.basic
        ([eA, eB].map (fun e => { e with snow3h := some 42 })) =
      aggregate sId 0 Action.basic [eA, eB] :=
  (C10_snow_ignored sId 0 Action.basic [eA, eB] (fun _ => some 42)).1

end WeatherApi
